import Mathlib

/-!
Shallow embedding of the project-management module (src/project.py,
src/serializers/project.py, src/viewset/project.py).

External collaborators (Django ORM, Django cache, OpenStack client,
GardenerService) are modelled explicitly: the ORM tables become lists of
records, the cache becomes an association list with explicit expiry
epochs, and calls to the external services are recorded in call logs so
that "exactly one call" properties can be stated.
-/

namespace ForApexive

/-- A `core.Project` row. `organization` is a nullable foreign key
(`null=True`); `teams` are the team ids related to the project through
`ProjectMembership` (the reverse accessor used by `teams__in`);
`openstack_id` is a blank-able `CharField`, so "unset" is the empty
string (Python truthiness `if self.openstack_id`). -/
structure Project where
  id : Nat
  organization : Option Nat
  teams : List Nat
  name : String
  openstack_id : String
  deriving DecidableEq, Repr

/-- A `core.User` as seen by `ProjectQuerySet`: its organizations and
teams (sets of ids), the result of
`has_perm "core.can_manage_all_organization_projects"`, and the
`is_admin` flag read by the public viewset. -/
structure User where
  id : Nat
  organizations : List Nat
  teams : List Nat
  can_manage_all_organization_projects : Bool
  is_admin : Bool
  deriving DecidableEq, Repr

/-- The Django lookup `organization__in=orgs` on a nullable foreign key:
a NULL organization matches no element of the list. -/
def organization_in (p : Project) (orgs : List Nat) : Bool :=
  match p.organization with
  | some o => orgs.contains o
  | none => false

/-- `ProjectQuerySet.for_user` (src/project.py lines 23-29):
filter by `organization__in=user.organizations.all()`; if the user has
the global `can_manage_all_organization_projects` permission return that
queryset deduplicated, otherwise further filter by
`teams__in=user.teams.all()` and deduplicate. -/
def for_user (projects : List Project) (user : User) : List Project :=
  let query_set := projects.filter (fun p => organization_in p user.organizations)
  if user.can_manage_all_organization_projects then
    query_set.dedup
  else
    (query_set.filter (fun p => p.teams.any (fun t => user.teams.contains t))).dedup

/-- `ProjectQuerySet.for_user_is_owner_of_organization` (src/project.py
lines 31-32): projects whose organization has an organization-membership
row for this user. `organization_memberships` is the table of
(organization id, user id) rows the lookup
`organization__organization_memberships__user=user` joins through. -/
def for_user_is_owner_of_organization (projects : List Project)
    (organization_memberships : List (Nat × Nat)) (user : User) : List Project :=
  (projects.filter (fun p =>
    match p.organization with
    | some o => organization_memberships.any (fun om => om.1 == o && om.2 == user.id)
    | none => false)).dedup

/-- `ProjectViewSet.get_queryset` (src/viewset/project.py lines 29-33):
admins get `Project.objects.all()`, everyone else gets
`for_user_is_owner_of_organization`. -/
def get_queryset (projects : List Project)
    (organization_memberships : List (Nat × Nat)) (user : User) : List Project :=
  if user.is_admin then projects
  else for_user_is_owner_of_organization projects organization_memberships user

/-- One element of the raw compute-usage list returned by the external
usage source (a server-usage dict with the fields this module reads). -/
structure UsageItem where
  state : String
  memory_mb : Int
  vcpus : Int
  deriving DecidableEq, Repr

/-- The summary dict built by `Project.usage_summary`. -/
structure Summary where
  total : Nat
  ram : Int
  vcpus : Int
  deriving DecidableEq, Repr

/-- The inner helper of `Project.usage_summary` (src/project.py lines
131-133): a Python function that returns the item when its state is
`"active"` and falls through to `None` otherwise. -/
def filter_active (item : UsageItem) : Option UsageItem :=
  if item.state = "active" then some item else none

/-- `Project.usage_summary` (src/project.py lines 125-144), with the
result of `self.get_compute_usage(start, end)` passed as the argument
(`none` for Python `None`). Mirrors the source exactly: the raw list is
mapped (not filtered) through `filter_active`, so non-active items
become `none` placeholders; the final truthiness test `if server_usages`
checks the mapped list for emptiness; `total` is the length of the
mapped list; the sums skip falsy entries (`for s in server_usages if s`). -/
def usage_summary (server_usages : Option (List UsageItem)) : Option Summary :=
  match server_usages with
  | none => none
  | some raw =>
    if raw.isEmpty then none
    else
      let mapped := raw.map filter_active
      if mapped.isEmpty then none
      else
        some { total := mapped.length
               ram := ((mapped.filterMap id).map (fun s => s.memory_mb)).sum
               vcpus := ((mapped.filterMap id).map (fun s => s.vcpus)).sum }

/-- A Python `datetime` restricted to the components this module touches.
`datetime.now().replace(day=1, hour=0, minute=0, second=0)` keeps the
`microsecond` component, so it is modelled explicitly. -/
structure DateTime where
  year : Nat
  month : Nat
  day : Nat
  hour : Nat
  minute : Nat
  second : Nat
  microsecond : Nat
  deriving DecidableEq, Repr

/-- The default `start` of `Project.get_compute_usage` (src/project.py
line 103): `datetime.now().replace(day=1, hour=0, minute=0, second=0)`. -/
def default_start (now : DateTime) : DateTime :=
  { now with day := 1, hour := 0, minute := 0, second := 0 }

/-- The default `end` of `Project.get_compute_usage` (src/project.py
line 105): `datetime.now().replace(hour=0, minute=0, second=0)`. -/
def default_end (now : DateTime) : DateTime :=
  { now with hour := 0, minute := 0, second := 0 }

/-- The `%b` directive of `strftime`: abbreviated month name. -/
def month_abbrev : Nat → String
  | 1 => "Jan"
  | 2 => "Feb"
  | 3 => "Mar"
  | 4 => "Apr"
  | 5 => "May"
  | 6 => "Jun"
  | 7 => "Jul"
  | 8 => "Aug"
  | 9 => "Sep"
  | 10 => "Oct"
  | 11 => "Nov"
  | 12 => "Dec"
  | _ => ""

/-- The `%d` directive of `strftime`: zero-padded day of month. -/
def two_digit (n : Nat) : String :=
  if n < 10 then "0" ++ toString n else toString n

/-- `strftime("%Y-%b-%d")` as used for the cache key. -/
def strftime_Y_b_d (d : DateTime) : String :=
  toString d.year ++ "-" ++ month_abbrev d.month ++ "-" ++ two_digit d.day

/-- The cache key of `Project.get_compute_usage` (src/project.py lines
107-111): `"compute_usage.{openstack_id}.{start:%Y-%b-%d}-{end:%Y-%b-%d}"`.
Only the day-granularity date components of `start` and `end` enter the
key. -/
def cache_key (openstack_id : String) (start end_ : DateTime) : String :=
  "compute_usage." ++ openstack_id ++ "." ++
    strftime_Y_b_d start ++ "-" ++ strftime_Y_b_d end_

/-- The Django cache (`django.core.cache.cache`) as an association list
of (key, value, expiry epoch). Values are raw usage lists. -/
structure CacheState where
  entries : List (String × List UsageItem × Nat)
  deriving DecidableEq, Repr

/-- `cache.get(key)`: the stored value when the entry exists and has not
expired at the current epoch, else `none` (Python `None`). -/
def cache_get (c : CacheState) (epoch : Nat) (key : String) : Option (List UsageItem) :=
  match c.entries.find? (fun e => e.1 == key) with
  | some e => if epoch < e.2.2 then some e.2.1 else none
  | none => none

/-- `cache.set(key, value, ttl)`: store the value with expiry
`epoch + ttl`, replacing any previous entry for the key. -/
def cache_set (c : CacheState) (epoch : Nat) (key : String)
    (value : List UsageItem) (ttl : Nat) : CacheState :=
  ⟨(key, value, epoch + ttl) :: c.entries.filter (fun e => !(e.1 == key))⟩

/-- One call to `Openstack().get_compute_usage_for_project`, recorded
with the arguments it received. -/
structure FetchCall where
  tenant : String
  start : DateTime
  end_ : DateTime
  deriving DecidableEq, Repr

/-- Result of one run of `Project.get_compute_usage`: the returned
value, the cache afterwards, and the external fetch calls made. -/
structure ComputeUsageResult where
  result : Option (List UsageItem)
  cache : CacheState
  fetch_calls : List FetchCall
  deriving Repr

/-- `Project.get_compute_usage` (src/project.py lines 99-123). `fetch`
is the external usage source `Openstack().get_compute_usage_for_project`
(it returns the raw usage list), `ttl` is
`settings.REPORTING_CACHE_TIMEOUT`, `epoch` the current cache clock and
`now` the current `datetime` used for the defaulted window. Missing
`start`/`end` default via `default_start`/`default_end`; an unset
(empty) `openstack_id` short-circuits to `None`; otherwise the cache is
consulted first and on a miss the fetched result is stored under
`cache_key`. -/
def get_compute_usage (fetch : String → DateTime → DateTime → List UsageItem)
    (ttl : Nat) (openstack_id : String) (c : CacheState) (epoch : Nat)
    (now : DateTime) (start? end? : Option DateTime) : ComputeUsageResult :=
  let start := match start? with
    | some s => s
    | none => default_start now
  let end_ := match end? with
    | some e => e
    | none => default_end now
  let key := cache_key openstack_id start end_
  if openstack_id = "" then ⟨none, c, []⟩
  else
    match cache_get c epoch key with
    | some result => ⟨some result, c, []⟩
    | none =>
      let result := fetch openstack_id start end_
      ⟨some result, cache_set c epoch key result ttl, [⟨openstack_id, start, end_⟩]⟩

/-- One call made to the OpenStack client by
`Project.create_openstack_project`. -/
structure CreateProjectCall where
  name : String
  deriving DecidableEq, Repr

/-- Result of `Project.create_openstack_project`: the project state
afterwards, the calls made to the OpenStack client, the number of
warnings logged, and the returned value (`none` for a bare `return`). -/
structure CreateOpenstackResult where
  project : Project
  openstack_calls : List CreateProjectCall
  warnings : Nat
  returned : Option String
  deriving Repr

/-- `Project.create_openstack_project` (src/project.py lines 172-183).
`create_project` is `Openstack().create_project`, mapping a name to the
new tenant's id. When `self.openstack_id` is already truthy (non-empty)
the method logs a warning and returns `None` without touching the
client; otherwise it creates the tenant, stores its id and saves. -/
def create_openstack_project (create_project : String → String)
    (p : Project) : CreateOpenstackResult :=
  if p.openstack_id ≠ "" then
    ⟨p, [], 1, none⟩
  else
    let os_project := create_project p.name
    ⟨{ p with openstack_id := os_project }, [⟨p.name⟩], 0, some os_project⟩

/-- The tenant record returned by `Openstack().get_project`, restricted
to the field this module reads. -/
structure OsProject where
  enabled : Bool
  deriving DecidableEq, Repr

/-- `Project.enabled_on_openstack` (src/project.py lines 228-233).
`get_project` is `Openstack().get_project`; an exceptional outcome is an
`Except.error`. The property returns the tenant's `enabled` flag and
degrades any exception to `false`. -/
def enabled_on_openstack (get_project : String → Except String OsProject)
    (openstack_id : String) : Bool :=
  match get_project openstack_id with
  | Except.ok os_project => os_project.enabled
  | Except.error _ => false

/-- A call to the provisioning collaborator (`GardenerService`),
identified by the id of the project pushed or deleted. -/
inductive GardenerCall where
  | save_project (project_id : Nat)
  | delete_project (project_id : Nat)
  deriving DecidableEq, Repr

/-- A `core.ProjectMembership` row: project id, team id, role. -/
structure ProjectMembership where
  project : Nat
  team : Nat
  role : String
  deriving DecidableEq, Repr

/-- The provisioning side effect of `ProjectMembership.save`
(src/project.py lines 269-273): after `super().save()`, exactly
`GardenerService.save_project(self.project)`. -/
def membership_save_gardener_calls (m : ProjectMembership) : List GardenerCall :=
  [GardenerCall.save_project m.project]

/-- The `post_delete` receiver `delete_project_membership`
(src/project.py lines 276-278): exactly
`GardenerService.delete_project(instance.project)`. -/
def delete_project_membership_gardener_calls (m : ProjectMembership) : List GardenerCall :=
  [GardenerCall.delete_project m.project]

/-- The membership effect of `ProjectSerializer.update`
(src/serializers/project.py lines 24-37) on the whole
`ProjectMembership` table. `teams_data` is the incoming list of
(team id, role) pairs for project `instance`.
`ProjectMembership.objects.exclude(project=instance, team__in=teams).delete()`
deletes every row that does NOT satisfy the conjunction
(project = instance AND team ∈ teams); then each incoming pair is
`update_or_create`d keyed by (project, team) with `role` in `defaults`. -/
def serializer_update (all_memberships : List ProjectMembership)
    (instance_ : Nat) (teams_data : List (Nat × String)) : List ProjectMembership :=
  let incoming_teams := teams_data.map (fun td => td.1)
  let remaining := all_memberships.filter
    (fun m => m.project == instance_ && incoming_teams.contains m.team)
  teams_data.foldl (fun acc td =>
    if acc.any (fun m => m.project == instance_ && m.team == td.1) then
      acc.map (fun m =>
        if m.project == instance_ && m.team == td.1 then { m with role := td.2 } else m)
    else acc ++ [⟨instance_, td.1, td.2⟩]) remaining

/-! ## Theorems -/

/-- Characterisation of the Django lookup `organization__in` in the
embedding. -/
theorem organization_in_iff (p : Project) (orgs : List Nat) :
    organization_in p orgs = true ↔ ∃ o, p.organization = some o ∧ o ∈ orgs := by
  unfold organization_in
  cases h : p.organization <;> simp [h]

/-- C1 (counterexample): a user holding the global
`can_manage_all_organization_projects` permission does NOT see all
projects — a project whose organization is not among the user's
organizations is filtered out before the permission is consulted, so
the claimed equivalence fails when the permission holds but the
organization does not match. -/
theorem C1_global_perm_does_not_see_all :
    (⟨10, [], [], true, false⟩ : User).can_manage_all_organization_projects = true ∧
    (⟨1, some 5, [3], "p", ""⟩ : Project) ∉
      for_user [⟨1, some 5, [3], "p", ""⟩] ⟨10, [], [], true, false⟩ := by
  decide

/-- C1 (amended): a project P is in `for_user(U)` iff P is in the table,
P's organization is among U's organizations, and U either holds the
global `can_manage_all_organization_projects` permission or one of P's
teams is among U's teams. The global permission only lifts the team
requirement: such a user sees all projects of their own organizations,
not all projects. -/
theorem C1_for_user_characterisation (projects : List Project) (u : User) (p : Project) :
    p ∈ for_user projects u ↔
      p ∈ projects ∧ (∃ o, p.organization = some o ∧ o ∈ u.organizations) ∧
        (u.can_manage_all_organization_projects = true ∨
          ∃ t, t ∈ p.teams ∧ t ∈ u.teams) := by
  unfold for_user
  cases h : u.can_manage_all_organization_projects <;>
    simp [h, List.mem_dedup, List.mem_filter, organization_in_iff]
  tauto

/-- C2 (code bug, evaluated at the failing input): a raw usage list with
no active item — here a single `shutoff` server — does NOT make
`usage_summary` return `None`. Because `filter_active` is applied with
`map` rather than `filter`, the mapped list is `[None]`, which is a
non-empty (truthy) list, so the code returns
`{total: 1, ram: 0, vcpus: 0}` instead of `None`. -/
theorem C2_nonactive_list_yields_summary :
    usage_summary (some [⟨"shutoff", 1024, 4⟩]) = some ⟨1, 0, 0⟩ ∧
    usage_summary (some [⟨"shutoff", 1024, 4⟩]) ≠ none := by
  decide

/-- C3 (code bug, evaluated at the claim's own example): on the input
`[{state: "active", memory_mb: 512, vcpus: 2},
{state: "shutoff", memory_mb: 1024, vcpus: 4}]` the code returns
`{total: 2, ram: 512, vcpus: 2}`, not the claimed
`{total: 1, ram: 512, vcpus: 2}`: `total` is the length of the mapped
list, which still contains a `None` placeholder for the `shutoff` item,
while the `ram`/`vcpus` sums do skip the placeholders. -/
theorem C3_total_counts_nonactive_placeholders :
    usage_summary (some [⟨"active", 512, 2⟩, ⟨"shutoff", 1024, 4⟩]) = some ⟨2, 512, 2⟩ ∧
    usage_summary (some [⟨"active", 512, 2⟩, ⟨"shutoff", 1024, 4⟩]) ≠ some ⟨1, 512, 2⟩ := by
  decide

/-- C4 (code bug, evaluated at a failing input): updating project 1 with
incoming teams `[(5, "read")]` while project 2 owns the membership
`(project 2, team 7, role "write")` deletes project 2's membership.
`exclude(project=instance, team__in=teams)` keeps only rows satisfying
the conjunction, so `.delete()` removes every membership of every other
project. -/
theorem C4_update_deletes_other_projects_memberships :
    serializer_update [⟨2, 7, "write"⟩] 1 [(5, "read")] = [⟨1, 5, "read"⟩] ∧
    (⟨2, 7, "write"⟩ : ProjectMembership) ∉ serializer_update [⟨2, 7, "write"⟩] 1 [(5, "read")] := by
  decide

/-- C5 (code bug, evaluated at a concrete membership): saving a
membership pushes exactly one `save_project` (an upsert) of the parent
project, but deleting a membership triggers
`GardenerService.delete_project` of the parent project — a provisioning
DELETION of the project, not the re-sync the claim states. -/
theorem C5_membership_delete_is_project_deletion :
    membership_save_gardener_calls ⟨1, 2, "admin"⟩ = [GardenerCall.save_project 1] ∧
    delete_project_membership_gardener_calls ⟨1, 2, "admin"⟩ = [GardenerCall.delete_project 1] ∧
    GardenerCall.delete_project 1 ≠ GardenerCall.save_project 1 := by
  decide

/-- C6: starting from an empty cache, a first call to
`get_compute_usage` with supplied `(start, end)` performs exactly one
external fetch and stores its result under `cache_key` with expiry
`epoch1 + ttl`; a second call with identical `(tenantId, start, end)`
while that entry is unexpired (`epoch2 < epoch1 + ttl`) performs no
external fetch and returns the cached value. -/
theorem C6_second_call_hits_cache
    (fetch : String → DateTime → DateTime → List UsageItem) (ttl : Nat)
    (tid : String) (s e : DateTime) (epoch1 epoch2 : Nat) (now1 now2 : DateTime)
    (htid : tid ≠ "") (hin : epoch2 < epoch1 + ttl) :
    (get_compute_usage fetch ttl tid ⟨[]⟩ epoch1 now1 (some s) (some e)).fetch_calls =
      [⟨tid, s, e⟩] ∧
    (get_compute_usage fetch ttl tid ⟨[]⟩ epoch1 now1 (some s) (some e)).cache.entries =
      [(cache_key tid s e, fetch tid s e, epoch1 + ttl)] ∧
    (get_compute_usage fetch ttl tid
        (get_compute_usage fetch ttl tid ⟨[]⟩ epoch1 now1 (some s) (some e)).cache
        epoch2 now2 (some s) (some e)).fetch_calls = [] ∧
    (get_compute_usage fetch ttl tid
        (get_compute_usage fetch ttl tid ⟨[]⟩ epoch1 now1 (some s) (some e)).cache
        epoch2 now2 (some s) (some e)).result =
      (get_compute_usage fetch ttl tid ⟨[]⟩ epoch1 now1 (some s) (some e)).result := by
  simp [get_compute_usage, cache_get, cache_set, htid, hin]

/-- C6 (witness): the theorem instantiated at a concrete fetch function,
tenant, window and epochs inside the TTL. -/
theorem C6_witness :
    ("tid-1" : String) ≠ "" ∧ (200 : Nat) < 100 + 3600 ∧
    ((get_compute_usage (fun _ _ _ => [⟨"active", 512, 2⟩]) 3600 "tid-1" ⟨[]⟩ 100
        ⟨2026, 10, 12, 9, 0, 0, 0⟩ (some ⟨2026, 10, 1, 0, 0, 0, 0⟩)
        (some ⟨2026, 10, 12, 0, 0, 0, 0⟩)).fetch_calls =
      [⟨"tid-1", ⟨2026, 10, 1, 0, 0, 0, 0⟩, ⟨2026, 10, 12, 0, 0, 0, 0⟩⟩] ∧
    (get_compute_usage (fun _ _ _ => [⟨"active", 512, 2⟩]) 3600 "tid-1" ⟨[]⟩ 100
        ⟨2026, 10, 12, 9, 0, 0, 0⟩ (some ⟨2026, 10, 1, 0, 0, 0, 0⟩)
        (some ⟨2026, 10, 12, 0, 0, 0, 0⟩)).cache.entries =
      [(cache_key "tid-1" ⟨2026, 10, 1, 0, 0, 0, 0⟩ ⟨2026, 10, 12, 0, 0, 0, 0⟩,
        (fun _ _ _ => [(⟨"active", 512, 2⟩ : UsageItem)]) "tid-1" (⟨2026, 10, 1, 0, 0, 0, 0⟩ : DateTime)
          (⟨2026, 10, 12, 0, 0, 0, 0⟩ : DateTime), 100 + 3600)] ∧
    (get_compute_usage (fun _ _ _ => [⟨"active", 512, 2⟩]) 3600 "tid-1"
        (get_compute_usage (fun _ _ _ => [⟨"active", 512, 2⟩]) 3600 "tid-1" ⟨[]⟩ 100
          ⟨2026, 10, 12, 9, 0, 0, 0⟩ (some ⟨2026, 10, 1, 0, 0, 0, 0⟩)
          (some ⟨2026, 10, 12, 0, 0, 0, 0⟩)).cache
        200 ⟨2026, 10, 12, 10, 0, 0, 0⟩ (some ⟨2026, 10, 1, 0, 0, 0, 0⟩)
        (some ⟨2026, 10, 12, 0, 0, 0, 0⟩)).fetch_calls = [] ∧
    (get_compute_usage (fun _ _ _ => [⟨"active", 512, 2⟩]) 3600 "tid-1"
        (get_compute_usage (fun _ _ _ => [⟨"active", 512, 2⟩]) 3600 "tid-1" ⟨[]⟩ 100
          ⟨2026, 10, 12, 9, 0, 0, 0⟩ (some ⟨2026, 10, 1, 0, 0, 0, 0⟩)
          (some ⟨2026, 10, 12, 0, 0, 0, 0⟩)).cache
        200 ⟨2026, 10, 12, 10, 0, 0, 0⟩ (some ⟨2026, 10, 1, 0, 0, 0, 0⟩)
        (some ⟨2026, 10, 12, 0, 0, 0, 0⟩)).result =
      (get_compute_usage (fun _ _ _ => [⟨"active", 512, 2⟩]) 3600 "tid-1" ⟨[]⟩ 100
        ⟨2026, 10, 12, 9, 0, 0, 0⟩ (some ⟨2026, 10, 1, 0, 0, 0, 0⟩)
        (some ⟨2026, 10, 12, 0, 0, 0, 0⟩)).result) :=
  ⟨by decide, by decide,
    C6_second_call_hits_cache (fun _ _ _ => [⟨"active", 512, 2⟩]) 3600 "tid-1"
      ⟨2026, 10, 1, 0, 0, 0, 0⟩ ⟨2026, 10, 12, 0, 0, 0, 0⟩ 100 200
      ⟨2026, 10, 12, 9, 0, 0, 0⟩ ⟨2026, 10, 12, 10, 0, 0, 0⟩ (by decide) (by decide)⟩

/-- C7: calling `create_openstack_project` on a project whose
`openstack_id` is already set (truthy) makes no call to the OpenStack
client, leaves the whole project state unchanged, logs one warning and
returns `None` (no error path exists). -/
theorem C7_create_noop_when_provisioned (create_project : String → String)
    (p : Project) (h : p.openstack_id ≠ "") :
    create_openstack_project create_project p = ⟨p, [], 1, none⟩ := by
  simp [create_openstack_project, h]

/-- C7 (witness): the theorem instantiated at a provisioned project. -/
theorem C7_witness :
    (⟨1, none, [], "proj", "os-123"⟩ : Project).openstack_id ≠ "" ∧
    create_openstack_project (fun n => n) ⟨1, none, [], "proj", "os-123"⟩ =
      ⟨⟨1, none, [], "proj", "os-123"⟩, [], 1, none⟩ :=
  ⟨by decide,
    C7_create_noop_when_provisioned (fun n => n) ⟨1, none, [], "proj", "os-123"⟩ (by decide)⟩

/-- C8: `enabled_on_openstack` returns `false` whenever the tenant
collaborator call raises (any `Except.error`), and returns the tenant's
`enabled` flag whenever the call succeeds. -/
theorem C8_enabled_degrades_to_false
    (get_project : String → Except String OsProject) (openstack_id : String) :
    (∀ err, get_project openstack_id = Except.error err →
      enabled_on_openstack get_project openstack_id = false) ∧
    (∀ t, get_project openstack_id = Except.ok t →
      enabled_on_openstack get_project openstack_id = t.enabled) := by
  refine ⟨fun err herr => ?_, fun t ht => ?_⟩
  · simp [enabled_on_openstack, herr]
  · simp [enabled_on_openstack, ht]

/-- C8 (witness): the theorem instantiated at an always-failing and an
always-succeeding collaborator. -/
theorem C8_witness :
    enabled_on_openstack (fun _ => Except.error "boom") "os-1" = false ∧
    enabled_on_openstack (fun _ => Except.ok ⟨true⟩) "os-1" = true :=
  ⟨(C8_enabled_degrades_to_false (fun _ => Except.error "boom") "os-1").1 "boom" rfl,
    (C8_enabled_degrades_to_false (fun _ => Except.ok ⟨true⟩) "os-1").2 ⟨true⟩ rfl⟩

/-- C9 (counterexample): with the current time
`2026-10-12 13:45:30.123456`, the defaulted window passed to the
external fetch is NOT at exactly 00:00 — `replace(day=1, hour=0,
minute=0, second=0)` keeps the microsecond component, so both window
ends carry `.123456`. -/
theorem C9_defaults_keep_microseconds :
    (get_compute_usage (fun _ _ _ => []) 3600 "tid-1" ⟨[]⟩ 0
        ⟨2026, 10, 12, 13, 45, 30, 123456⟩ none none).fetch_calls =
      [⟨"tid-1", ⟨2026, 10, 1, 0, 0, 0, 123456⟩, ⟨2026, 10, 12, 0, 0, 0, 123456⟩⟩] ∧
    (123456 : Nat) ≠ 0 := by
  decide

/-- C9 (amended): when `start`/`end` are not supplied,
`get_compute_usage` uses start = first day of the current month and
end = today, each with hour, minute and second set to 0 but with the
sub-second (microsecond) component of the current time preserved. -/
theorem C9_default_window (fetch : String → DateTime → DateTime → List UsageItem)
    (ttl : Nat) (tid : String) (epoch : Nat) (now : DateTime) (h : tid ≠ "") :
    (get_compute_usage fetch ttl tid ⟨[]⟩ epoch now none none).fetch_calls =
      [⟨tid, ⟨now.year, now.month, 1, 0, 0, 0, now.microsecond⟩,
        ⟨now.year, now.month, now.day, 0, 0, 0, now.microsecond⟩⟩] := by
  simp [get_compute_usage, cache_get, default_start, default_end, h]

/-- C9 (witness): the amended theorem at a concrete current time with a
non-zero microsecond component. -/
theorem C9_witness :
    ("tid-1" : String) ≠ "" ∧
    (get_compute_usage (fun _ _ _ => []) 3600 "tid-1" ⟨[]⟩ 0
        ⟨2026, 10, 12, 13, 45, 30, 123456⟩ none none).fetch_calls =
      [⟨"tid-1", ⟨2026, 10, 1, 0, 0, 0, 123456⟩, ⟨2026, 10, 12, 0, 0, 0, 123456⟩⟩] :=
  ⟨by decide,
    C9_default_window (fun _ _ _ => []) 3600 "tid-1" 0
      ⟨2026, 10, 12, 13, 45, 30, 123456⟩ (by decide)⟩

/-- Characterisation of the `any`-based organization-membership test. -/
theorem organization_membership_any_iff (oms : List (Nat × Nat)) (o uid : Nat) :
    oms.any (fun om => om.1 == o && om.2 == uid) = true ↔ (o, uid) ∈ oms := by
  simp only [List.any_eq_true, Bool.and_eq_true, beq_iff_eq]
  constructor
  · rintro ⟨⟨a, b⟩, hmem, h1, h2⟩
    cases h1
    cases h2
    exact hmem
  · intro hmem
    exact ⟨(o, uid), hmem, rfl, rfl⟩

/-- C10: on the public (deprecated) endpoint an admin user's queryset is
all projects, bypassing the organization-owner scoping; any other user
gets exactly `for_user_is_owner_of_organization`, i.e. the projects
whose organization has an organization-membership row for that user. -/
theorem C10_admin_bypasses_owner_scoping (projects : List Project)
    (organization_memberships : List (Nat × Nat)) (u : User) :
    (u.is_admin = true →
      get_queryset projects organization_memberships u = projects) ∧
    (u.is_admin = false →
      get_queryset projects organization_memberships u =
        for_user_is_owner_of_organization projects organization_memberships u ∧
      ∀ p, p ∈ get_queryset projects organization_memberships u ↔
        p ∈ projects ∧ ∃ o, p.organization = some o ∧
          (o, u.id) ∈ organization_memberships) := by
  refine ⟨fun h => ?_, fun h => ⟨?_, fun p => ?_⟩⟩
  · simp [get_queryset, h]
  · simp [get_queryset, h]
  · simp only [get_queryset, h, Bool.false_eq_true, if_false,
      for_user_is_owner_of_organization, List.mem_dedup, List.mem_filter]
    cases ho : p.organization <;>
      simp [ho, organization_membership_any_iff]

/-- C10 (witness): the theorem instantiated at an admin and at a
non-admin user. -/
theorem C10_witness :
    get_queryset [⟨1, some 5, [], "p", ""⟩] [] ⟨7, [], [], false, true⟩ =
      [⟨1, some 5, [], "p", ""⟩] ∧
    get_queryset [⟨1, some 5, [], "p", ""⟩] [] ⟨7, [], [], false, false⟩ =
      for_user_is_owner_of_organization [⟨1, some 5, [], "p", ""⟩] [] ⟨7, [], [], false, false⟩ :=
  ⟨(C10_admin_bypasses_owner_scoping [⟨1, some 5, [], "p", ""⟩] [] ⟨7, [], [], false, true⟩).1 rfl,
    ((C10_admin_bypasses_owner_scoping [⟨1, some 5, [], "p", ""⟩] [] ⟨7, [], [], false, false⟩).2 rfl).1⟩

end ForApexive
